import Mathlib

/-!
Verification of flynt's `src/flynt/api.py` (and, where the conversion engine
itself is absent from the provided sources, a model of it taken from the
specification).  The api layer is embedded shallowly: file I/O becomes explicit
values (`Option String` for the outcome of reading a file, an event trace for
writes and collaborator invocations), Python exceptions become `Except`, and the
external collaborators (`fstringify_code_by_line`, `pyupgrade.fix_file`) become
function parameters, matching the call-shape used by `api.py`.
-/

namespace Flynt

/-- Python exceptions that can arise in `fstringify_file`:  an I/O or decode
error while opening/reading the file, a parse (or other) error raised by the
conversion engine, and the `UnboundLocalError` that Python raises when
`len(contents)` is evaluated in the except-handler while `contents` was never
assigned (the read itself failed). -/
inductive PyExn
  | ioError
  | parseError
  | unboundLocalError
deriving DecidableEq, Repr

/-- The quadruple returned by `fstringify_file`; field names follow the
unpacking in `fstringify_files`:
`changed, count_expressions, charcount_original, charcount_new`. -/
structure FileResult where
  changed : Bool
  count_expressions : Nat
  charcount_original : Nat
  charcount_new : Nat
deriving DecidableEq, Repr

/-- Observable file-level events of one `fstringify_file` call, in order:
reading the file, writing it whole (`file.write(new_code)`), and the invocation
of the legacy-upgrader pass (`pyupgrade.fix_file`), recorded together with the
file contents it was invoked on and whether it reported a modification. -/
inductive Event
  | readF (contents : String)
  | writeF (contents : String)
  | pyupF (before : String) (changed : Bool)
deriving DecidableEq, Repr

/-- The try/except/else core of `fstringify_file` (api.py lines 30-49), for a
successfully read `contents`: run the conversion engine; on an exception the
handler yields the no-change quadruple; otherwise write the file only when the
new code differs from the original.  Returns the quadruple `result`, the file
contents after the conditional write, and the event trace. -/
def fstringify_core (contents : String)
    (code_by_line : String → Bool → Nat → Except PyExn (String × Nat))
    (multiline : Bool) (len_limit : Nat) :
    FileResult × String × List Event :=
  match code_by_line contents multiline len_limit with
  | Except.error _ =>
      (⟨false, 0, contents.length, contents.length⟩, contents, [Event.readF contents])
  | Except.ok (new_code, changes) =>
      if new_code = contents then
        (⟨false, 0, contents.length, contents.length⟩, contents, [Event.readF contents])
      else
        (⟨true, changes, contents.length, new_code.length⟩, new_code,
          [Event.readF contents, Event.writeF new_code])

/-- `fstringify_file(filename, multiline, len_limit, pyup)` from api.py.

`readFile` is the outcome of `open(filename).read()`: `none` when it raises
(missing file, I/O error, decode error).  In that case the Python handler
catches the exception but then evaluates `len(contents)` with `contents`
unbound, so the call itself raises `UnboundLocalError`.  `code_by_line` stands
for the external `fstringify_code_by_line`, and `pyup_fix` for
`pyupgrade.fix_file` acting on the current file contents (`none` = it reported
no change and left the file alone, `some s` = it rewrote the file to `s`; the
subsequent `charcount_stats` length-after is then `s.length`). -/
def fstringify_file (readFile : Option String)
    (code_by_line : String → Bool → Nat → Except PyExn (String × Nat))
    (multiline : Bool) (len_limit : Nat) (pyup : Bool)
    (pyup_fix : String → Option String) :
    Except PyExn (FileResult × String × List Event) :=
  match readFile with
  | none => Except.error PyExn.unboundLocalError
  | some contents =>
      let core := fstringify_core contents code_by_line multiline len_limit
      if pyup then
        match pyup_fix core.2.1 with
        | none =>
            Except.ok (core.1, core.2.1, core.2.2 ++ [Event.pyupF core.2.1 false])
        | some fixed =>
            Except.ok
              (⟨true, core.1.count_expressions, core.1.charcount_original, fixed.length⟩,
                fixed, core.2.2 ++ [Event.pyupF core.2.1 true])
      else
        Except.ok core

/-- `BLACKLIST = {".tox", "venv", "site-packages", ".eggs"}` from api.py. -/
def BLACKLIST : List String := [".tox", "venv", "site-packages", ".eggs"]

/-- Whether `sub` starts `l` (character-by-character). -/
def startsWithChars : List Char → List Char → Bool
  | [], _ => true
  | _ :: _, [] => false
  | a :: as, b :: bs => a == b && startsWithChars as bs

/-- Whether `sub` occurs contiguously inside `l`: Python's `sub in s`. -/
def hasSubChars (sub : List Char) : List Char → Bool
  | [] => startsWithChars sub []
  | c :: t => startsWithChars sub (c :: t) || hasSubChars sub t

/-- The skip test in `fstringify_files`: `any(b in file[0] for b in BLACKLIST)`,
applied to the directory component of a (directory, filename) pair. -/
def blacklisted (dir : String) : Bool :=
  BLACKLIST.any (fun b => hasSubChars b.data dir.data)

/-- The running totals accumulated by `fstringify_files`. -/
structure Totals where
  changed_files : Nat
  total_expressions : Nat
  total_charcount_original : Nat
  total_charcount_new : Nat
deriving DecidableEq, Repr

/-- One iteration of the `for file in files` loop in `fstringify_files`:
skip blacklisted directories, otherwise run `fstringify_file` (propagating any
exception it raises) and fold its quadruple into the totals. -/
def stepFile (env : String × String → Option String)
    (code_by_line : String → Bool → Nat → Except PyExn (String × Nat))
    (multiline : Bool) (len_limit : Nat) (pyup : Bool)
    (pyup_fix : String → Option String)
    (t : Totals) (file : String × String) : Except PyExn Totals :=
  if blacklisted file.1 then
    Except.ok t
  else
    match fstringify_file (env file) code_by_line multiline len_limit pyup pyup_fix with
    | Except.error e => Except.error e
    | Except.ok (r, _, _) =>
        Except.ok
          ⟨t.changed_files + (if r.changed then 1 else 0),
            t.total_expressions + (if r.changed then r.count_expressions else 0),
            t.total_charcount_original + r.charcount_original,
            t.total_charcount_new + r.charcount_new⟩

/-- The `for file in files` loop of `fstringify_files`, threading the running
totals; an exception raised by `fstringify_file` propagates and aborts the
loop, exactly as an uncaught Python exception would. -/
def runFiles (env : String × String → Option String)
    (code_by_line : String → Bool → Nat → Except PyExn (String × Nat))
    (multiline : Bool) (len_limit : Nat) (pyup : Bool)
    (pyup_fix : String → Option String) :
    List (String × String) → Totals → Except PyExn Totals
  | [], t => Except.ok t
  | f :: fs, t =>
      match stepFile env code_by_line multiline len_limit pyup pyup_fix t f with
      | Except.error e => Except.error e
      | Except.ok t2 => runFiles env code_by_line multiline len_limit pyup pyup_fix fs t2

/-- `fstringify_files(files, ...)` from api.py: run the per-file loop over the
supplied (directory, filename) pairs, starting from zero totals.  `env` models
the file system: the contents found at `os.path.join(dir, name)`, or `none`
when reading that path raises.  The function's Python return value is the
`changed_files` field of the resulting totals. -/
def fstringify_files (files : List (String × String))
    (env : String × String → Option String)
    (code_by_line : String → Bool → Nat → Except PyExn (String × Nat))
    (multiline : Bool) (len_limit : Nat) (pyup : Bool)
    (pyup_fix : String → Option String) : Except PyExn Totals :=
  runFiles env code_by_line multiline len_limit pyup pyup_fix files ⟨0, 0, 0, 0⟩

/-- The pairs that survive the blacklist skip, i.e. the files the loop actually
processes. -/
def kept (files : List (String × String)) : List (String × String) :=
  files.filter (fun f => !(blacklisted f.1))

/-- The quadruple `fstringify_file` yields for one (directory, filename) pair,
or the exception it raises. -/
def resultOf (env : String × String → Option String)
    (code_by_line : String → Bool → Nat → Except PyExn (String × Nat))
    (multiline : Bool) (len_limit : Nat) (pyup : Bool)
    (pyup_fix : String → Option String) (f : String × String) : Except PyExn FileResult :=
  match fstringify_file (env f) code_by_line multiline len_limit pyup pyup_fix with
  | Except.error e => Except.error e
  | Except.ok x => Except.ok x.1

/-- The per-file quadruples for a list of pairs, or `none` as soon as one of
the calls raises. -/
def resultsOf (env : String × String → Option String)
    (code_by_line : String → Bool → Nat → Except PyExn (String × Nat))
    (multiline : Bool) (len_limit : Nat) (pyup : Bool)
    (pyup_fix : String → Option String) : List (String × String) → Option (List FileResult)
  | [] => some []
  | f :: fs =>
      match resultOf env code_by_line multiline len_limit pyup pyup_fix f with
      | Except.error _ => none
      | Except.ok r =>
          match resultsOf env code_by_line multiline len_limit pyup pyup_fix fs with
          | none => none
          | some rs => some (r :: rs)

/-- Pure summation of per-file quadruples: how many have `changed = true`, the
sum of their expression counts over the changed ones, and the sums of the
original/new character counts over all of them. -/
def agg (rs : List FileResult) : Totals :=
  ⟨(rs.filter (fun r => r.changed)).length,
    ((rs.filter (fun r => r.changed)).map (fun r => r.count_expressions)).sum,
    (rs.map (fun r => r.charcount_original)).sum,
    (rs.map (fun r => r.charcount_new)).sum⟩

/-- `cc_reduction = total_cc_original - total_cc_new` as printed by
`print_report` (Python ints may go negative, hence `Int`). -/
def cc_reduction (t : Totals) : Int :=
  (t.total_charcount_original : Int) - (t.total_charcount_new : Int)

/-- `cc_percent_reduction = cc_reduction / total_cc_original` from
`print_report`, modelled over the rationals. -/
def cc_percent_reduction (t : Totals) : Rat :=
  (cc_reduction t : Rat) / (t.total_charcount_original : Rat)

/-- One argument of `fstringify(files_or_paths, ...)`, after `os.path.abspath`:
whether the path exists, whether it is a directory, the (directory, filename)
pairs `astor.code_to_ast.find_py_files` yields for a directory, and the
`os.path.dirname` / `os.path.basename` split for a plain file. -/
structure InputPath where
  path_exists : Bool
  is_dir : Bool
  dir_files : List (String × String)
  dirname : String
  basename : String

/-- The collection loop of `fstringify`: build the `files` list, or `none` as
soon as some path does not exist (Python calls `sys.exit(1)` there). -/
def collect_files : List InputPath → Option (List (String × String))
  | [] => some []
  | p :: ps =>
      if p.path_exists then
        match collect_files ps with
        | none => none
        | some rest =>
            some ((if p.is_dir then p.dir_files else [(p.dirname, p.basename)]) ++ rest)
      else none

/-- How a `fstringify` run ends: `sys.exit(code)`, an uncaught Python
exception, or a normal return value. -/
inductive RunOutcome
  | exited (code : Nat)
  | raised (e : PyExn)
  | returned (code : Nat)
deriving DecidableEq, Repr

/-- `fstringify(files_or_paths, ..., fail_on_changes)` from api.py: collect the
files (exiting 1 on a nonexistent path), run `fstringify_files` (an uncaught
exception there aborts the run), and return `changed_files` when
`fail_on_changes` else `0`. -/
def fstringify (paths : List InputPath)
    (env : String × String → Option String)
    (code_by_line : String → Bool → Nat → Except PyExn (String × Nat))
    (multiline : Bool) (len_limit : Nat) (pyup : Bool)
    (pyup_fix : String → Option String) (fail_on_changes : Bool) : RunOutcome :=
  match collect_files paths with
  | none => RunOutcome.exited 1
  | some files =>
      match fstringify_files files env code_by_line multiline len_limit pyup pyup_fix with
      | Except.error e => RunOutcome.raised e
      | Except.ok t =>
          RunOutcome.returned (if fail_on_changes then t.changed_files else 0)

/-- A concrete conversion engine that returns the input unchanged with zero
changes (used to instantiate theorems at concrete inputs). -/
def convId : String → Bool → Nat → Except PyExn (String × Nat) :=
  fun s _ _ => Except.ok (s, 0)

/-- A concrete conversion engine that rewrites any input to `"b"`, reporting
one converted expression. -/
def convB : String → Bool → Nat → Except PyExn (String × Nat) :=
  fun _ _ _ => Except.ok ("b", 1)

/-- A concrete conversion engine that always raises a parse error. -/
def convRaise : String → Bool → Nat → Except PyExn (String × Nat) :=
  fun _ _ _ => Except.error PyExn.parseError

/-- A concrete legacy-upgrader pass that never modifies the file. -/
def fixNone : String → Option String := fun _ => none

/-- A concrete legacy-upgrader pass that always rewrites the file to `"bb"`. -/
def fixBB : String → Option String := fun _ => some "bb"

/-- A concrete file system in which every path holds `"a"`. -/
def envA : String × String → Option String := fun _ => some "a"

/-- A concrete file system in which no path can be read. -/
def envNone : String × String → Option String := fun _ => none

/-! Model of the conversion engine.  `fstringify_code_by_line` lives in
`flynt/process.py`, which is not among the provided sources; the spec describes
it in sections 2, 4 and 9 and it is modelled here from those words. -/

/-- Modelled from the spec: the missing conversion engine
(`fstringify_code_by_line`, flynt/process.py) operates on a SourceUnit as a
closed tagged-variant walk over candidate kinds (spec section 9): untouched
source bytes, a percent-format candidate, a method-call-format candidate, and
an already interpolated literal (the rewriter's output, which is not a
candidate for either supported idiom, spec section 4.1). -/
inductive Segment
  | other (text : String)
  | percentFormat (template : String) (args : List String)
  | methodFormat (template : String) (args : List String)
  | interpolated (text : String)
deriving DecidableEq, Repr

/-- The double-quote character. -/
def dquoteChar : Char := Char.ofNat 34

/-- The single-quote character. -/
def squoteChar : Char := Char.ofNat 39

/-- The opening interpolation delimiter. -/
def obraceChar : Char := Char.ofNat 123

/-- The closing interpolation delimiter. -/
def cbraceChar : Char := Char.ofNat 125

/-- The newline character. -/
def newlineChar : Char := Char.ofNat 10

/-- Number of placeholders: occurrences of the two-character placeholder
`a b` in a template (placeholder syntax of the idiom in use). -/
def countSeq (a b : Char) : List Char → Nat
  | [] => 0
  | [_] => 0
  | x :: y :: rest =>
      if x == a && y == b then countSeq a b rest + 1
      else countSeq a b (y :: rest)

/-- Substitute each placeholder `a b` by the next bound argument, wrapped in
the interpolation delimiters (spec section 4.3). -/
def substSeq (a b : Char) : List Char → List String → List Char
  | [], _ => []
  | [c], _ => [c]
  | x :: y :: rest, args =>
      if x == a && y == b then
        match args with
        | [] => x :: y :: substSeq a b rest []
        | arg :: more => obraceChar :: (arg.data ++ (cbraceChar :: substSeq a b rest more))
      else x :: substSeq a b (y :: rest) args

/-- Modelled from the spec: analyzer output for one candidate (spec section 3),
either eligible together with the rewriter's replacement text, or rejected with
an enumerable reason (spec section 7). -/
inductive ConversionPlan
  | eligible (rewritten : String)
  | rejected (reason : String)
deriving DecidableEq, Repr

/-- Modelled from the spec: the Convertibility Analyzer plus Literal Rewriter
for one candidate with placeholder syntax `a b` (spec sections 4.2 and 4.3):
every placeholder must resolve to exactly one argument; a template spanning
multiple lines is rejected when multiline mode is disabled; an argument holding
both quote characters leaves no safe outer quote and is rejected; otherwise the
outer quote switches away from any quote occurring in an argument, and the
rewritten single-line literal is rejected when it exceeds the length limit. -/
def analyzeAndRewrite (multiline : Bool) (len_limit : Nat)
    (a b : Char) (template : String) (args : List String) : ConversionPlan :=
  if countSeq a b template.data ≠ args.length then
    ConversionPlan.rejected "placeholder and argument counts differ"
  else if template.data.contains newlineChar && !multiline then
    ConversionPlan.rejected "multiline disabled"
  else if args.any (fun s => s.data.contains dquoteChar && s.data.contains squoteChar) then
    ConversionPlan.rejected "unresolvable quote conflict"
  else
    let q := if args.any (fun s => s.data.contains dquoteChar) then squoteChar else dquoteChar
    let lit : List Char := 'f' :: q :: (substSeq a b template.data args ++ [q])
    if len_limit < lit.length then ConversionPlan.rejected "length limit exceeded"
    else ConversionPlan.eligible (String.mk lit)

/-- Modelled from the spec: one driver step (spec section 4.5) on one segment:
non-candidates pass through unchanged; a candidate is analyzed and either
patched to the rewritten interpolated literal (counting one accepted change) or
left exactly as it was. -/
def convertSegment (multiline : Bool) (len_limit : Nat) : Segment → Segment × Nat
  | Segment.other t => (Segment.other t, 0)
  | Segment.interpolated t => (Segment.interpolated t, 0)
  | Segment.percentFormat t as =>
      match analyzeAndRewrite multiline len_limit '%' 's' t as with
      | ConversionPlan.eligible s => (Segment.interpolated s, 1)
      | ConversionPlan.rejected _ => (Segment.percentFormat t as, 0)
  | Segment.methodFormat t as =>
      match analyzeAndRewrite multiline len_limit obraceChar cbraceChar t as with
      | ConversionPlan.eligible s => (Segment.interpolated s, 1)
      | ConversionPlan.rejected _ => (Segment.methodFormat t as, 0)

/-- Modelled from the spec: the Conversion Driver
`convert(source_text, multiline, length_limit) -> (new_text, change_count)`
(spec section 4.5): convert every candidate that the analyzer accepts, splice
the patches back in place of their spans, and count the accepted patches. -/
def fstringify_code_by_line_model (source : List Segment)
    (multiline : Bool) (len_limit : Nat) : List Segment × Nat :=
  (source.map (fun seg => (convertSegment multiline len_limit seg).1),
    (source.map (fun seg => (convertSegment multiline len_limit seg).2)).sum)

/-! Helper lemmas (shared across the claim theorems). -/

/-- Summation over a cons: how one quadruple folds into the aggregate. -/
theorem agg_cons (r : FileResult) (rs : List FileResult) :
    agg (r :: rs) =
      ⟨(if r.changed then 1 else 0) + (agg rs).changed_files,
        (if r.changed then r.count_expressions else 0) + (agg rs).total_expressions,
        r.charcount_original + (agg rs).total_charcount_original,
        r.charcount_new + (agg rs).total_charcount_new⟩ := by
  cases hch : r.changed <;> simp [agg, List.filter_cons, hch, Nat.add_comm]

/-- The two possible outcomes of the core pass: the no-change triple, or a
changed quadruple with the file rewritten to the converter's output. -/
theorem fstringify_core_cases (contents : String)
    (cbl : String → Bool → Nat → Except PyExn (String × Nat)) (m : Bool) (l : Nat) :
    fstringify_core contents cbl m l =
        (⟨false, 0, contents.length, contents.length⟩, contents, [Event.readF contents]) ∨
    ∃ new_code changes,
      cbl contents m l = Except.ok (new_code, changes) ∧ new_code ≠ contents ∧
      fstringify_core contents cbl m l =
        (⟨true, changes, contents.length, new_code.length⟩, new_code,
          [Event.readF contents, Event.writeF new_code]) := by
  cases hc : cbl contents m l with
  | error e => exact Or.inl (by simp [fstringify_core, hc])
  | ok p =>
      by_cases he : p.1 = contents
      · exact Or.inl (by simp [fstringify_core, hc, he])
      · exact Or.inr ⟨p.1, p.2, by simp [hc], he, by simp [fstringify_core, hc, he]⟩

/-- The loop ignores blacklisted pairs: running it on `files` is running it on
the kept sublist, whatever the accumulated totals are. -/
theorem runFiles_filter (env : String × String → Option String)
    (cbl : String → Bool → Nat → Except PyExn (String × Nat))
    (m : Bool) (l : Nat) (pyup : Bool) (fix : String → Option String) :
    ∀ (files : List (String × String)) (t : Totals),
      runFiles env cbl m l pyup fix files t = runFiles env cbl m l pyup fix (kept files) t := by
  intro files
  induction files with
  | nil => intro t; rfl
  | cons f fs ih =>
      intro t
      by_cases hb : blacklisted f.1
      · rw [show kept (f :: fs) = kept fs from by simp [kept, List.filter_cons, hb]]
        rw [show runFiles env cbl m l pyup fix (f :: fs) t = runFiles env cbl m l pyup fix fs t
            from by simp [runFiles, stepFile, hb]]
        exact ih t
      · rw [show kept (f :: fs) = f :: kept fs from by simp [kept, List.filter_cons, hb]]
        simp only [runFiles]
        cases hs : stepFile env cbl m l pyup fix t f with
        | error e => rfl
        | ok t2 => exact ih t2

/-- Running the loop when every kept file's `fstringify_file` call succeeds:
the totals grow by exactly the componentwise sums of the quadruples. -/
theorem runFiles_agg (env : String × String → Option String)
    (cbl : String → Bool → Nat → Except PyExn (String × Nat))
    (m : Bool) (l : Nat) (pyup : Bool) (fix : String → Option String) :
    ∀ (files : List (String × String)) (t : Totals) (rs : List FileResult),
      resultsOf env cbl m l pyup fix (kept files) = some rs →
      runFiles env cbl m l pyup fix files t =
        Except.ok ⟨t.changed_files + (agg rs).changed_files,
          t.total_expressions + (agg rs).total_expressions,
          t.total_charcount_original + (agg rs).total_charcount_original,
          t.total_charcount_new + (agg rs).total_charcount_new⟩ := by
  intro files
  induction files with
  | nil =>
      intro t rs h
      simp [kept, resultsOf] at h
      subst h
      simp [runFiles, agg]
  | cons f fs ih =>
      intro t rs h
      by_cases hb : blacklisted f.1
      · rw [show kept (f :: fs) = kept fs from by simp [kept, List.filter_cons, hb]] at h
        rw [show runFiles env cbl m l pyup fix (f :: fs) t = runFiles env cbl m l pyup fix fs t
            from by simp [runFiles, stepFile, hb]]
        exact ih t rs h
      · rw [show kept (f :: fs) = f :: kept fs from by simp [kept, List.filter_cons, hb]] at h
        cases hf : fstringify_file (env f) cbl m l pyup fix with
        | error e => exfalso; simp [resultsOf, resultOf, hf] at h
        | ok x =>
            cases hrs : resultsOf env cbl m l pyup fix (kept fs) with
            | none => exfalso; simp [resultsOf, resultOf, hf, hrs] at h
            | some rs2 =>
                have hrseq : rs = x.1 :: rs2 := by
                  simp [resultsOf, resultOf, hf, hrs] at h
                  exact h.symm
                subst hrseq
                have hstep : stepFile env cbl m l pyup fix t f = Except.ok
                    ⟨t.changed_files + (if x.1.changed then 1 else 0),
                      t.total_expressions + (if x.1.changed then x.1.count_expressions else 0),
                      t.total_charcount_original + x.1.charcount_original,
                      t.total_charcount_new + x.1.charcount_new⟩ := by
                  simp [stepFile, hb, hf]
                simp only [runFiles, hstep]
                rw [ih _ rs2 hrs, agg_cons]
                cases hch : x.1.changed <;>
                  simp [hch, Totals.mk.injEq] <;> omega

/-! Theorems. -/

/-- Claim C1 (code bug): an exception raised by the conversion engine on read
contents `"a"` is caught and yields the no-change quadruple, as the claim
says; but when the read itself fails, the except-handler's `len(contents)`
references the never-assigned `contents` and the call raises
`UnboundLocalError` instead of returning a no-change result. -/
theorem C1_read_failure_raises :
    fstringify_file (some "a") convRaise false 88 false fixNone =
      Except.ok (⟨false, 0, 1, 1⟩, "a", [Event.readF "a"]) ∧
    fstringify_file none convId false 88 false fixNone =
      Except.error PyExn.unboundLocalError := by
  constructor <;> rfl

/-- Claim C2, counterexample: with pyup enabled, even though the conversion
engine returns the contents unchanged (`convId`), the upgrader pass rewrites
the file and `fstringify_file` returns `changed = true` — not the
`changed = false`, count-0 result the claim states for every file. -/
theorem C2_counterexample :
    convId "a" false 88 = Except.ok ("a", 0) ∧
    fstringify_file (some "a") convId false 88 true fixBB =
      Except.ok (⟨true, 0, 1, 2⟩, "bb", [Event.readF "a", Event.pyupF "a" true]) := by
  constructor <;> rfl

/-- Claim C3, counterexample: the pair `(".tox", "f.py")` is dropped by
`fstringify_files` with untouched zero totals, although processing it would
have produced a changed quadruple `⟨true, 1, 1, 1⟩` — so the core does apply
path filtering of its own. -/
theorem C3_counterexample :
    fstringify_files [(".tox", "f.py")] envA convB false 88 false fixNone =
      Except.ok ⟨0, 0, 0, 0⟩ ∧
    fstringify_file (envA (".tox", "f.py")) convB false 88 false fixNone =
      Except.ok (⟨true, 1, 1, 1⟩, "b", [Event.readF "a", Event.writeF "b"]) := by
  constructor <;> rfl

/-- Claim C7 (code bug): a nonexistent input path is indeed a hard stop with
`sys.exit(1)`, but a per-file failure in the core can be fatal after all:
a file whose read fails makes `fstringify_file` raise `UnboundLocalError`,
which propagates through `fstringify_files` and aborts the whole run. -/
theorem C7_eval :
    fstringify [⟨false, false, [], "d", "f"⟩] envA convId false 88 false fixNone false =
      RunOutcome.exited 1 ∧
    fstringify [⟨true, false, [], "d", "f"⟩] envNone convId false 88 false fixNone false =
      RunOutcome.raised PyExn.unboundLocalError := by
  constructor <;> rfl

/-- Claim C2 (amended): when the conversion engine returns text equal to the
original contents, the core performs no write (no write event at all); with the
pyup pass disabled — or when the upgrader reports no change — `fstringify_file`
returns changed = false with expression count 0 and the file is untouched. -/
theorem C2_no_write_on_equal (contents : String)
    (cbl : String → Bool → Nat → Except PyExn (String × Nat)) (m : Bool) (l : Nat)
    (pyup : Bool) (fix : String → Option String) (k : Nat)
    (hc : cbl contents m l = Except.ok (contents, k)) :
    ∃ r s evs, fstringify_file (some contents) cbl m l pyup fix = Except.ok (r, s, evs) ∧
      (∀ c, Event.writeF c ∉ evs) ∧
      ((pyup = false ∨ fix contents = none) →
        r = ⟨false, 0, contents.length, contents.length⟩ ∧ s = contents) := by
  have hcore : fstringify_core contents cbl m l =
      (⟨false, 0, contents.length, contents.length⟩, contents, [Event.readF contents]) := by
    simp [fstringify_core, hc]
  cases pyup with
  | false =>
      refine ⟨⟨false, 0, contents.length, contents.length⟩, contents,
        [Event.readF contents], ?_, ?_, ?_⟩
      · simp [fstringify_file, hcore]
      · intro c; simp
      · intro _; exact ⟨rfl, rfl⟩
  | true =>
      cases hf : fix contents with
      | none =>
          refine ⟨⟨false, 0, contents.length, contents.length⟩, contents,
            [Event.readF contents, Event.pyupF contents false], ?_, ?_, ?_⟩
          · simp [fstringify_file, hcore, hf]
          · intro c; simp
          · intro _; exact ⟨rfl, rfl⟩
      | some fixed =>
          refine ⟨⟨true, 0, contents.length, fixed.length⟩, fixed,
            [Event.readF contents, Event.pyupF contents true], ?_, ?_, ?_⟩
          · simp [fstringify_file, hcore, hf]
          · intro c; simp
          · rintro (hp | hn)
            · exact absurd hp (by simp)
            · exact absurd hn (by simp)

/-- Claim C4: with pyup enabled, the upgrader pass is the last event of the
trace — every write the core performed precedes it — and it is invoked on the
file contents as they stand after the core's conditional write; when it reports
a modification, the returned quadruple is changed = true with the core's
expression count, the original character count, and the character count after
the upgrader pass. -/
theorem C4_pyup_after_write (contents : String)
    (cbl : String → Bool → Nat → Except PyExn (String × Nat)) (m : Bool) (l : Nat)
    (fix : String → Option String) (r : FileResult) (s : String) (evs : List Event)
    (h : fstringify_file (some contents) cbl m l true fix = Except.ok (r, s, evs)) :
    evs = (fstringify_core contents cbl m l).2.2 ++
        [Event.pyupF (fstringify_core contents cbl m l).2.1
          ((fix (fstringify_core contents cbl m l).2.1).isSome)] ∧
    (∀ c, Event.writeF c ∈ evs → Event.writeF c ∈ (fstringify_core contents cbl m l).2.2) ∧
    (∀ fixed, fix (fstringify_core contents cbl m l).2.1 = some fixed →
      r = ⟨true, (fstringify_core contents cbl m l).1.count_expressions,
        (fstringify_core contents cbl m l).1.charcount_original, fixed.length⟩) := by
  cases hf : fix (fstringify_core contents cbl m l).2.1 with
  | none =>
      simp only [fstringify_file, hf, if_true] at h
      obtain ⟨hr, hs, hevs⟩ := by simpa using h
      subst hr hevs
      refine ⟨by simp [hf], ?_, ?_⟩
      · intro c hm
        rcases List.mem_append.1 hm with hm | hm
        · exact hm
        · simp at hm
      · intro fixed hfx; exact absurd hfx (by simp)
  | some fixed =>
      simp only [fstringify_file, hf, if_true] at h
      obtain ⟨hr, hs, hevs⟩ := by simpa using h
      subst hr hevs
      refine ⟨by simp [hf], ?_, ?_⟩
      · intro c hm
        rcases List.mem_append.1 hm with hm | hm
        · exact hm
        · simp at hm
      · intro fixed2 hfx
        obtain rfl : fixed = fixed2 := by simpa using hfx
        rfl

/-- Claim C6: for a readable file, `fstringify_file` yields the quadruple
(changed, count_expressions, charcount_original, charcount_new); when the
conversion produced different text, the full new text is written back (a write
event of exactly `new_code`), and with pyup disabled the quadruple is
`(true, changes, len(contents), len(new_code))`. -/
theorem C6_result_and_write (contents : String)
    (cbl : String → Bool → Nat → Except PyExn (String × Nat)) (m : Bool) (l : Nat)
    (pyup : Bool) (fix : String → Option String) (new_code : String) (changes : Nat)
    (hc : cbl contents m l = Except.ok (new_code, changes)) (hne : new_code ≠ contents) :
    ∃ (r : FileResult) (s : String) (evs : List Event),
      fstringify_file (some contents) cbl m l pyup fix = Except.ok (r, s, evs) ∧
      Event.writeF new_code ∈ evs ∧
      (pyup = false → r = ⟨true, changes, contents.length, new_code.length⟩ ∧ s = new_code) := by
  have hcore : fstringify_core contents cbl m l =
      (⟨true, changes, contents.length, new_code.length⟩, new_code,
        [Event.readF contents, Event.writeF new_code]) := by
    simp [fstringify_core, hc, hne]
  cases pyup with
  | false =>
      refine ⟨⟨true, changes, contents.length, new_code.length⟩, new_code,
        [Event.readF contents, Event.writeF new_code], ?_, ?_, ?_⟩
      · simp [fstringify_file, hcore]
      · simp
      · intro _; exact ⟨rfl, rfl⟩
  | true =>
      cases hf : fix new_code with
      | none =>
          refine ⟨⟨true, changes, contents.length, new_code.length⟩, new_code,
            [Event.readF contents, Event.writeF new_code, Event.pyupF new_code false],
            ?_, ?_, ?_⟩
          · simp [fstringify_file, hcore, hf]
          · simp
          · intro hp; exact absurd hp (by simp)
      | some fixed =>
          refine ⟨⟨true, changes, contents.length, fixed.length⟩, fixed,
            [Event.readF contents, Event.writeF new_code, Event.pyupF new_code true],
            ?_, ?_, ?_⟩
          · simp [fstringify_file, hcore, hf]
          · simp
          · intro hp; exact absurd hp (by simp)

/-- Claim C9: whenever `fstringify_file` returns with changed = false, the
expression count is 0 and the original and new character counts coincide. -/
theorem C9_unchanged_invariant (readFile : Option String)
    (cbl : String → Bool → Nat → Except PyExn (String × Nat)) (m : Bool) (l : Nat)
    (pyup : Bool) (fix : String → Option String)
    (r : FileResult) (s : String) (evs : List Event)
    (h : fstringify_file readFile cbl m l pyup fix = Except.ok (r, s, evs))
    (hch : r.changed = false) :
    r.count_expressions = 0 ∧ r.charcount_original = r.charcount_new := by
  cases readFile with
  | none => exact absurd h (by simp [fstringify_file])
  | some contents =>
      rcases fstringify_core_cases contents cbl m l with hcore |
        ⟨new_code, changes, hc, hne, hcore⟩ <;>
        cases pyup with
        | false =>
            simp only [fstringify_file, hcore, if_false] at h
            obtain ⟨hr, _, _⟩ := by simpa using h
            subst hr
            first
              | exact ⟨rfl, rfl⟩
              | (exfalso; simp at hch)
        | true =>
            cases hf : fix (fstringify_core contents cbl m l).2.1 with
            | none =>
                simp only [fstringify_file, hf, if_true] at h
                obtain ⟨hr, _, _⟩ := by simpa using h
                subst hr
                rw [hcore] at hch ⊢
                first
                  | exact ⟨rfl, rfl⟩
                  | (exfalso; simp at hch)
            | some fixed =>
                simp only [fstringify_file, hf, if_true] at h
                obtain ⟨hr, _, _⟩ := by simpa using h
                subst hr
                exfalso; simp at hch

/-- Claim C3 (amended): `fstringify_files` processes exactly the pairs whose
directory component does not contain a blacklist entry (".tox", "venv",
"site-packages", ".eggs") as a substring — running it on any list of pairs is
the same as running it on the kept sublist. -/
theorem C3_blacklist_filter (files : List (String × String))
    (env : String × String → Option String)
    (cbl : String → Bool → Nat → Except PyExn (String × Nat)) (m : Bool) (l : Nat)
    (pyup : Bool) (fix : String → Option String) :
    fstringify_files files env cbl m l pyup fix =
      fstringify_files (kept files) env cbl m l pyup fix := by
  have h := runFiles_filter env cbl m l pyup fix files ⟨0, 0, 0, 0⟩
  unfold fstringify_files
  rw [h]

/-- Claim C5: when every kept file's call succeeds, the totals returned by
`fstringify_files` are exactly the componentwise sums of the per-file
quadruples — changed_files counts the quadruples with changed = true, the
expression total sums their counts over the changed ones, and the character
totals sum over all processed files; the printed reduction and percentage are
computed from those sums. -/
theorem C5_aggregate (files : List (String × String))
    (env : String × String → Option String)
    (cbl : String → Bool → Nat → Except PyExn (String × Nat)) (m : Bool) (l : Nat)
    (pyup : Bool) (fix : String → Option String) (rs : List FileResult)
    (h : resultsOf env cbl m l pyup fix (kept files) = some rs) :
    fstringify_files files env cbl m l pyup fix = Except.ok (agg rs) ∧
    cc_reduction (agg rs) =
      (((rs.map (fun r => r.charcount_original)).sum : Nat) : Int) -
        (((rs.map (fun r => r.charcount_new)).sum : Nat) : Int) ∧
    cc_percent_reduction (agg rs) =
      (cc_reduction (agg rs) : Rat) /
        (((rs.map (fun r => r.charcount_original)).sum : Nat) : Rat) := by
  refine ⟨?_, rfl, rfl⟩
  have := runFiles_agg env cbl m l pyup fix files ⟨0, 0, 0, 0⟩ rs h
  unfold fstringify_files
  rw [this]
  simp

/-- Claim C10: on a run that completes normally, `fstringify` returns 0 when
`fail_on_changes` is false and the changed-file count when it is true; that
count is nonzero exactly when some processed file's quadruple has
changed = true. -/
theorem C10_return_value (paths : List InputPath)
    (env : String × String → Option String)
    (cbl : String → Bool → Nat → Except PyExn (String × Nat)) (m : Bool) (l : Nat)
    (pyup : Bool) (fix : String → Option String)
    (files : List (String × String)) (rs : List FileResult)
    (hc : collect_files paths = some files)
    (h : resultsOf env cbl m l pyup fix (kept files) = some rs) :
    fstringify paths env cbl m l pyup fix false = RunOutcome.returned 0 ∧
    fstringify paths env cbl m l pyup fix true = RunOutcome.returned (agg rs).changed_files ∧
    ((agg rs).changed_files ≠ 0 ↔ ∃ r ∈ rs, r.changed = true) := by
  have hff : fstringify_files files env cbl m l pyup fix = Except.ok (agg rs) := by
    have := runFiles_agg env cbl m l pyup fix files ⟨0, 0, 0, 0⟩ rs h
    unfold fstringify_files
    rw [this]
    simp
  refine ⟨?_, ?_, ?_⟩
  · simp [fstringify, hc, hff]
  · simp [fstringify, hc, hff]
  · show (rs.filter (fun r => r.changed)).length ≠ 0 ↔ _
    rw [Ne, List.length_eq_zero, List.filter_eq_nil_iff]
    push_neg
    simp

/-- One driver step is idempotent on its own output: a segment that has been
converted (or deliberately left alone) yields no further change. -/
theorem convertSegment_idem (m : Bool) (l : Nat) (seg : Segment) :
    convertSegment m l ((convertSegment m l seg).1) = ((convertSegment m l seg).1, 0) := by
  cases seg with
  | other t => rfl
  | interpolated t => rfl
  | percentFormat t as =>
      cases hp : analyzeAndRewrite m l '%' 's' t as with
      | eligible s => simp [convertSegment, hp]
      | rejected reason => simp [convertSegment, hp]
  | methodFormat t as =>
      cases hp : analyzeAndRewrite m l obraceChar cbraceChar t as with
      | eligible s => simp [convertSegment, hp]
      | rejected reason => simp [convertSegment, hp]

/-- Claim C8: converting a source unit and then converting the output again,
with the same multiline and length-limit settings, yields zero additional
changes and text identical to the first conversion's output. -/
theorem C8_idempotent (source : List Segment) (m : Bool) (l : Nat) :
    fstringify_code_by_line_model ((fstringify_code_by_line_model source m l).1) m l =
      ((fstringify_code_by_line_model source m l).1, 0) := by
  simp only [fstringify_code_by_line_model, List.map_map, Function.comp_def]
  refine Prod.ext ?_ ?_
  · show _ = (source.map fun seg => (convertSegment m l seg).1)
    exact List.map_congr_left (fun seg _ => by rw [convertSegment_idem])
  · show List.sum _ = 0
    apply List.sum_eq_zero
    intro x hx
    obtain ⟨seg, _, hseg⟩ := List.mem_map.1 hx
    rw [convertSegment_idem] at hseg
    exact hseg.symm

/-- Witness for C2: the identity conversion of `"a"` with pyup disabled. -/
theorem C2_witness :
    convId "a" false 77 = Except.ok ("a", 0) ∧
    ∃ r s evs, fstringify_file (some "a") convId false 77 false fixNone = Except.ok (r, s, evs) ∧
      (∀ c, Event.writeF c ∉ evs) ∧
      ((false = false ∨ fixNone "a" = none) →
        r = ⟨false, 0, "a".length, "a".length⟩ ∧ s = "a") :=
  ⟨rfl, C2_no_write_on_equal "a" convId false 77 false fixNone 0 rfl⟩

/-- Witness for C4: converting `"a"` to `"b"` with an upgrader pass that
rewrites the file to `"bb"`. -/
theorem C4_witness :
    fstringify_file (some "a") convB false 88 true fixBB =
      Except.ok (⟨true, 1, 1, 2⟩, "bb",
        [Event.readF "a", Event.writeF "b", Event.pyupF "b" true]) ∧
    ([Event.readF "a", Event.writeF "b", Event.pyupF "b" true] =
        (fstringify_core "a" convB false 88).2.2 ++
          [Event.pyupF (fstringify_core "a" convB false 88).2.1
            ((fixBB (fstringify_core "a" convB false 88).2.1).isSome)] ∧
      (∀ c, Event.writeF c ∈ [Event.readF "a", Event.writeF "b", Event.pyupF "b" true] →
        Event.writeF c ∈ (fstringify_core "a" convB false 88).2.2) ∧
      (∀ fixed, fixBB (fstringify_core "a" convB false 88).2.1 = some fixed →
        (⟨true, 1, 1, 2⟩ : FileResult) =
          ⟨true, (fstringify_core "a" convB false 88).1.count_expressions,
            (fstringify_core "a" convB false 88).1.charcount_original, fixed.length⟩)) :=
  ⟨rfl, C4_pyup_after_write "a" convB false 88 fixBB ⟨true, 1, 1, 2⟩ "bb"
    [Event.readF "a", Event.writeF "b", Event.pyupF "b" true] rfl⟩

/-- Witness for C5: one processed file, unchanged. -/
theorem C5_witness :
    resultsOf envA convId false 77 false fixNone (kept [("d", "f")]) =
      some [⟨false, 0, 1, 1⟩] ∧
    (fstringify_files [("d", "f")] envA convId false 77 false fixNone =
        Except.ok (agg [⟨false, 0, 1, 1⟩]) ∧
      cc_reduction (agg [⟨false, 0, 1, 1⟩]) =
        ((([(⟨false, 0, 1, 1⟩ : FileResult)].map (fun r => r.charcount_original)).sum : Nat) : Int) -
          ((([(⟨false, 0, 1, 1⟩ : FileResult)].map (fun r => r.charcount_new)).sum : Nat) : Int) ∧
      cc_percent_reduction (agg [⟨false, 0, 1, 1⟩]) =
        (cc_reduction (agg [⟨false, 0, 1, 1⟩]) : Rat) /
          ((([(⟨false, 0, 1, 1⟩ : FileResult)].map (fun r => r.charcount_original)).sum : Nat) : Rat)) :=
  ⟨rfl, C5_aggregate [("d", "f")] envA convId false 77 false fixNone [⟨false, 0, 1, 1⟩] rfl⟩

/-- Witness for C6: converting `"a"` to `"b"` with pyup disabled writes the
file and returns the changed quadruple. -/
theorem C6_witness :
    convB "a" false 88 = Except.ok ("b", 1) ∧
    ∃ (r : FileResult) (s : String) (evs : List Event),
      fstringify_file (some "a") convB false 88 false fixNone = Except.ok (r, s, evs) ∧
      Event.writeF "b" ∈ evs ∧
      (false = false → r = ⟨true, 1, "a".length, "b".length⟩ ∧ s = "b") :=
  ⟨rfl, C6_result_and_write "a" convB false 88 false fixNone "b" 1 rfl (by decide)⟩

/-- Witness for C9: an unchanged run has count 0 and equal character counts. -/
theorem C9_witness :
    fstringify_file (some "a") convId false 88 false fixNone =
      Except.ok (⟨false, 0, 1, 1⟩, "a", [Event.readF "a"]) ∧
    ((⟨false, 0, 1, 1⟩ : FileResult).count_expressions = 0 ∧
      (⟨false, 0, 1, 1⟩ : FileResult).charcount_original =
        (⟨false, 0, 1, 1⟩ : FileResult).charcount_new) :=
  ⟨rfl, C9_unchanged_invariant (some "a") convId false 88 false fixNone
    ⟨false, 0, 1, 1⟩ "a" [Event.readF "a"] rfl rfl⟩

/-- Witness for C10: one existing file path whose file gets converted. -/
theorem C10_witness :
    collect_files [⟨true, false, [], "d", "f"⟩] = some [("d", "f")] ∧
    resultsOf envA convB false 88 false fixNone (kept [("d", "f")]) = some [⟨true, 1, 1, 1⟩] ∧
    (fstringify [⟨true, false, [], "d", "f"⟩] envA convB false 88 false fixNone false =
        RunOutcome.returned 0 ∧
      fstringify [⟨true, false, [], "d", "f"⟩] envA convB false 88 false fixNone true =
        RunOutcome.returned (agg [⟨true, 1, 1, 1⟩]).changed_files ∧
      ((agg [⟨true, 1, 1, 1⟩]).changed_files ≠ 0 ↔
        ∃ r ∈ [(⟨true, 1, 1, 1⟩ : FileResult)], r.changed = true)) :=
  ⟨rfl, rfl, C10_return_value [⟨true, false, [], "d", "f"⟩] envA convB false 88 false fixNone
    [("d", "f")] [⟨true, 1, 1, 1⟩] rfl rfl⟩

end Flynt
